import Mathlib

/-!
Verification of the authentication and session subsystem of the
boxingcoach backend (`src/utils/auth.ts`, `src/index.ts`,
`src/routes/auth.ts`, `src/routes/training.ts`).

The TypeScript source is shallowly embedded: pure route handlers and
helpers become Lean functions; the external database and the JWT wire
decoding become explicit function parameters; clock time is an explicit
`Nat` of seconds.
-/

namespace BoxingCoach

/-- Truthiness of an optional JS string: `undefined` and the empty
string are falsy, every other string is truthy. -/
def jsTruthy : Option String → Bool
  | none => false
  | some s => s ≠ ""

/-- Embedding of JavaScript `s.split(c)` for a single-character
separator, on the character list: splits at every occurrence of `c`,
keeping empty segments, and returns `[[]]` on the empty list (JS
`"".split(c)` is `[""]`). -/
def splitChars (c : Char) : List Char → List (List Char)
  | [] => [[]]
  | x :: xs =>
    let r := splitChars c xs
    if x = c then [] :: r else (x :: r.headD []) :: r.tail

/-- Embedding of JavaScript `s.split(c)` on strings. -/
def jsSplit (c : Char) (s : String) : List String :=
  (splitChars c s.data).map (fun l => String.mk l)

/-! ## Session token service (`src/utils/auth.ts`) -/

/-- Decoded JWT payload. `jwt.sign` in the source signs `\x7bid, email\x7d`
and the `jsonwebtoken` library adds the issued-at (`iat`) and expiry
(`exp`) timestamps, in seconds. -/
structure JwtPayload where
  id : String
  email : String
  iat : Nat
  exp : Nat
deriving DecidableEq, Repr

/-- Modelled from the spec: the HMAC signature of the `jsonwebtoken`
library (the token wire format is an implementation detail; the spec
requires a standard signed-token format where the shared secret, and
only the shared secret, determines forgeability). The MAC is idealized
as an injective function of the key and the signed payload. -/
def hmacTag (secret : String) (p : JwtPayload) : String × JwtPayload :=
  (secret, p)

/-- A presented token: either a structurally well-formed signed token
(a payload together with the signature bytes it carries), or a
malformed string that does not parse as a JWT. -/
inductive Token where
  | signed (payload : JwtPayload) (tag : String × JwtPayload)
  | malformed (raw : String)
deriving DecidableEq, Repr

/-- The error a `jsonwebtoken.verify` call throws. -/
inductive JwtError where
  | malformedStructure
  | invalidSignature
  | tokenExpired
deriving DecidableEq, Repr

/-- Modelled from the spec: `jsonwebtoken.verify` — checks structure,
then the signature against the given secret, then expiry (the library
rejects exactly when the clock timestamp is at or past `exp`); it
throws (here: returns `.error`) on each failure and returns the decoded
payload on success. -/
def jwtVerify (secret : String) (now : Nat) : Token → Except JwtError JwtPayload
  | .malformed _ => .error .malformedStructure
  | .signed p tag =>
    if tag ≠ hmacTag secret p then .error .invalidSignature
    else if p.exp ≤ now then .error .tokenExpired
    else .ok p

/-- Seven days in seconds: the `expiresIn: '7d'` option of `jwt.sign`. -/
def sevenDays : Nat := 7 * 24 * 60 * 60

/-- Modelled from the spec: `jsonwebtoken.sign` with `expiresIn: '7d'` —
sets `iat` to the current time and `exp` to `iat + 7 days`, and signs
the payload with the secret. -/
def jwtSign (secret : String) (now : Nat) (id email : String) : Token :=
  let p : JwtPayload := ⟨id, email, now, now + sevenDays⟩
  .signed p (hmacTag secret p)

/-- `generateToken` (src/utils/auth.ts, lines 18-24): signs
`\x7bid: userId, email\x7d` with the module secret and `expiresIn: '7d'`. -/
def generateToken (secret : String) (now : Nat) (userId email : String) : Token :=
  jwtSign secret now userId email

/-- `verifyToken` (src/utils/auth.ts, lines 29-35): calls `jwt.verify`
inside try/catch and returns `null` (here `none`) on any thrown error. -/
def verifyToken (secret : String) (now : Nat) (token : Token) : Option JwtPayload :=
  (jwtVerify secret now token).toOption

/-! ## Authenticated-request guard (`src/utils/auth.ts`, lines 55-70) -/

/-- A protected request, reduced to the only field the guard reads:
the `authorization` header (absent or a string). -/
structure AuthRequest where
  authorization : Option String
deriving DecidableEq, Repr

/-- Outcome of the guard: either an early JSON error response of shape
`\x7b error: message \x7d` with a status code, or control passed to the
downstream handler with the decoded payload attached as `req.user`. -/
inductive GuardOutcome where
  | respond (status : Nat) (error : String)
  | proceed (user : JwtPayload)
deriving DecidableEq, Repr

/-- Token extraction of the guard:
`const token = authHeader && authHeader.split(' ')[1]` followed by the
`if (!token)` falsiness test (an absent header, an absent second
segment, and an empty second segment are all falsy). -/
def extractToken (auth : Option String) : Option String :=
  match auth with
  | none => none
  | some h =>
    match (jsSplit ' ' h)[1]? with
    | none => none
    | some t => if t = "" then none else some t

/-- `authenticateToken` (src/utils/auth.ts, lines 55-70). `decode` is
the JWT library's parsing of the presented bearer string into a token
(strings that are not well-formed tokens decode to `.malformed`). -/
def authenticateToken (secret : String) (now : Nat) (decode : String → Token)
    (req : AuthRequest) : GuardOutcome :=
  match extractToken req.authorization with
  | none => .respond 401 "Access token required"
  | some t =>
    match verifyToken secret now (decode t) with
    | none => .respond 403 "Invalid or expired token"
    | some p => .proceed p

/-! ## Credential hasher (`src/utils/auth.ts`, lines 40-50) -/

/-- A bcrypt salt: the cost factor together with the random salt bytes
drawn by the generator. -/
structure BcryptSalt where
  rounds : Nat
  randomness : String
deriving DecidableEq, Repr

/-- A bcrypt hash string, in parsed form: bcrypt output encodes the
cost, the salt and the digest, and the encoding is injective. -/
structure BcryptHash where
  rounds : Nat
  randomness : String
  digest : String × String
deriving DecidableEq, Repr

/-- Modelled from the spec: `bcrypt.genSalt(rounds)` draws fresh random
salt bytes (made explicit as the `randomness` argument) and records the
cost factor in the salt. -/
def bcryptGenSalt (rounds : Nat) (randomness : String) : BcryptSalt :=
  ⟨rounds, randomness⟩

/-- Modelled from the spec: `bcrypt.hash(password, salt)` applies the
salted one-way transform; the transform is idealized as an injective
function of the salt and the password, and the output embeds the salt
so that verification can recompute it. -/
def bcryptHashWith (salt : BcryptSalt) (password : String) : BcryptHash :=
  ⟨salt.rounds, salt.randomness, (salt.randomness, password)⟩

/-- Modelled from the spec: `bcrypt.compare(password, hash)` recomputes
the transform with the salt embedded in the hash and compares digests. -/
def bcryptCompare (password : String) (h : BcryptHash) : Bool :=
  h.digest == (h.randomness, password)

/-- `hashPassword` (src/utils/auth.ts, lines 40-43): generates a salt
with cost factor 10 and hashes the password with it. The randomness the
salt generator draws is passed explicitly. -/
def hashPassword (randomness : String) (password : String) : BcryptHash :=
  bcryptHashWith (bcryptGenSalt 10 randomness) password

/-- `comparePassword` (src/utils/auth.ts, lines 48-50). -/
def comparePassword (password : String) (h : BcryptHash) : Bool :=
  bcryptCompare password h

/-! ## Auth routes (`src/routes/auth.ts`) -/

/-- A row of the `users` table, as the routes read it. -/
structure UserRow where
  id : String
  email : String
  password_hash : BcryptHash
  full_name : String
deriving DecidableEq, Repr

/-- A JSON response of the auth routes: an error response of shape
`\x7b error: message \x7d` with a status, or the success bodies of
login (200) and signup (201), which carry the issued token and the
user fields. -/
inductive HttpResp where
  | err (status : Nat) (message : String)
  | loginOk (token : Token) (id email fullName : String)
  | signupOk (token : Token) (id email fullName : String)
deriving DecidableEq, Repr

/-- Request body of `POST /login`; fields may be absent. -/
structure LoginBody where
  email : Option String
  password : Option String
deriving DecidableEq, Repr

/-- `POST /api/v1/auth/login` (src/routes/auth.ts, lines 90-133).
`lookup` is the database query selecting the user row by email
(returning `none` both when no row matches and when the query errors). -/
def postLogin (secret : String) (now : Nat) (body : LoginBody)
    (lookup : String → Option UserRow) : HttpResp :=
  if !(jsTruthy body.email) || !(jsTruthy body.password) then
    .err 400 "Email and password are required"
  else
    match lookup (body.email.getD "") with
    | none => .err 401 "Invalid email or password"
    | some user =>
      if !(comparePassword (body.password.getD "") user.password_hash) then
        .err 401 "Invalid email or password"
      else
        .loginOk (generateToken secret now user.id user.email) user.id user.email
          user.full_name

/-- Request body of `POST /signup`; fields may be absent. -/
structure SignupBody where
  email : Option String
  password : Option String
  fullName : Option String
deriving DecidableEq, Repr

/-- Error of the `users` insert: code 23505 (unique violation) or any
other database error. -/
inductive DbInsertError where
  | uniqueViolation
  | other (message : String)
deriving DecidableEq, Repr

/-- Observable side effects of the signup handler, in order: hashing
the plaintext, inserting the user row, inserting the stats row. -/
inductive Effect where
  | hashed (password : String)
  | insertedUser (email : String) (passwordHash : BcryptHash) (fullName : String)
  | insertedStats (userId : String)
deriving DecidableEq, Repr

/-- `POST /api/v1/auth/signup` (src/routes/auth.ts, lines 26-84),
returning the response together with the list of effects performed.
`insertUser` is the database insert into `users`. -/
def postSignup (randomness secret : String) (now : Nat) (body : SignupBody)
    (insertUser : String → BcryptHash → String → Except DbInsertError UserRow) :
    HttpResp × List Effect :=
  if !(jsTruthy body.email) || !(jsTruthy body.password) then
    (.err 400 "Email and password are required", [])
  else if (body.password.getD "").length < 6 then
    (.err 400 "Password must be at least 6 characters", [])
  else
    let email := body.email.getD ""
    let pw := body.password.getD ""
    let passwordHash := hashPassword randomness pw
    let fullName :=
      if jsTruthy body.fullName then body.fullName.getD ""
      else (jsSplit '@' email).headD ""
    match insertUser email passwordHash fullName with
    | .error .uniqueViolation => (.err 409 "Email already exists", [.hashed pw])
    | .error (.other msg) => (.err 500 msg, [.hashed pw])
    | .ok user =>
      (.signupOk (generateToken secret now user.id user.email) user.id user.email
          user.full_name,
        [.hashed pw, .insertedUser email passwordHash fullName, .insertedStats user.id])

/-! ## Training stats update (`src/routes/training.ts`) -/

/-- `calculateAverage` (src/routes/training.ts, lines 311-313). The
arithmetic is embedded over the rationals; every value appearing in the
documented test vectors is exactly representable, and the operations on
them are exact, in binary64 as well. -/
def calculateAverage (currentAvg newValue totalCount : ℚ) : ℚ :=
  (currentAvg * (totalCount - 1) + newValue) / totalCount

/-- A row of the `user_stats` table; every column may be null (the row
is created at signup with only `user_id`). -/
structure UserStats where
  total_sessions : Option Nat
  total_training_time : Option ℚ
  average_score : Option ℚ
  best_score : Option ℚ
deriving DecidableEq, Repr

/-- The stats update of `POST /sessions` (src/routes/training.ts,
lines 189-199). JS null coerces to 0 in arithmetic and is falsy, so
`x || 0` and null-as-operand both embed as `Option.getD 0`; the
best-score update keeps the stored value (possibly null) on the
not-greater branch, exactly as the conditional expression does. -/
def updateStats (s : UserStats) (durationSeconds score : ℚ) : UserStats :=
  let n1 : Nat := s.total_sessions.getD 0 + 1
  { total_sessions := some n1
    total_training_time := some (s.total_training_time.getD 0 + durationSeconds)
    average_score := some (calculateAverage (s.average_score.getD 0) score (n1 : ℚ))
    best_score := if s.best_score.getD 0 < score then some score else s.best_score }

/-- The best-score rule as the spec words it: new best =
`max(currentBest, v)`, an absent current best treated as 0. Stated for
comparison with the rule of `updateStats`. -/
def specBestScore (currentBest : Option ℚ) (v : ℚ) : Option ℚ :=
  some (max (currentBest.getD 0) v)

/-! ## Startup environment check (`src/index.ts`, lines 1-22) -/

/-- The environment variables the startup check reads. -/
structure EnvMap where
  supabase_url : Option String
  supabase_service_role_key : Option String
  jwt_secret : Option String
deriving DecidableEq, Repr

/-- `dotenv.config()`: loads the `.env` file into the process
environment without overwriting variables that are already set. -/
def dotenvLoad (osEnv fileEnv : EnvMap) : EnvMap :=
  { supabase_url := osEnv.supabase_url <|> fileEnv.supabase_url
    supabase_service_role_key :=
      osEnv.supabase_service_role_key <|> fileEnv.supabase_service_role_key
    jwt_secret := osEnv.jwt_secret <|> fileEnv.jwt_secret }

/-- `process.env[name]` for the three required variable names. -/
def envLookup (env : EnvMap) : String → Option String
  | "SUPABASE_URL" => env.supabase_url
  | "SUPABASE_SERVICE_ROLE_KEY" => env.supabase_service_role_key
  | "JWT_SECRET" => env.jwt_secret
  | _ => none

/-- `requiredEnvVars` (src/index.ts, line 13). -/
def requiredEnvVars : List String :=
  ["SUPABASE_URL", "SUPABASE_SERVICE_ROLE_KEY", "JWT_SECRET"]

/-- `missingEnvVars` (src/index.ts, line 14): the required names whose
value is falsy (absent or empty). -/
def missingEnvVars (env : EnvMap) : List String :=
  requiredEnvVars.filter (fun v => !(jsTruthy (envLookup env v)))

/-- `JWT_SECRET` (src/utils/auth.ts, line 5):
`process.env.JWT_SECRET || 'your-secret-key'`, evaluated when the
module is first imported. -/
def moduleJwtSecret (osEnv : EnvMap) : String :=
  osEnv.jwt_secret.getD "your-secret-key"

/-- A started server, reduced to the signing secret the token service
captured. -/
structure RunningApp where
  signingSecret : String
deriving DecidableEq, Repr

/-- Process startup (src/index.ts, lines 1-22). Module imports are
evaluated before the body of `index.ts` runs, so `utils/auth` captures
`JWT_SECRET` from the process environment BEFORE `dotenv.config()`
(line 10) merges the `.env` file into it; the required-variable check
(lines 13-20) then runs on the merged environment and exits the
process (here `.error`) when any variable is missing. -/
def startup (osEnv fileEnv : EnvMap) : Except (List String) RunningApp :=
  let signingSecret := moduleJwtSecret osEnv
  let env := dotenvLoad osEnv fileEnv
  match missingEnvVars env with
  | [] => .ok ⟨signingSecret⟩
  | m :: ms => .error (m :: ms)

/-! ## Claim-model variants (stated from the claim wording, for
refinement comparison) -/

/-- `splitChars` generalized to a character predicate, used to state
the claim-side notion of whitespace-separated segments. -/
def splitCharsP (p : Char → Bool) : List Char → List (List Char)
  | [] => [[]]
  | x :: xs =>
    let r := splitCharsP p xs
    if p x then [] :: r else (x :: r.headD []) :: r.tail

/-- The token extraction as claim C9 words it: the second
whitespace-separated segment of the header. -/
def wsSecondSegment (h : String) : Option String :=
  ((splitCharsP (fun c => c.isWhitespace) h.data).map (fun l => String.mk l)).get? 1

/-- The guard as claim C9 describes it: take the second
whitespace-separated segment of the authorization header as the token,
rejecting as a missing credential when there is none. -/
def claimNineGuard (secret : String) (now : Nat) (decode : String → Token)
    (req : AuthRequest) : GuardOutcome :=
  let tok := req.authorization.bind (fun h =>
    match wsSecondSegment h with
    | none => none
    | some t => if t = "" then none else some t)
  match tok with
  | none => .respond 401 "Access token required"
  | some t =>
    match verifyToken secret now (decode t) with
    | none => .respond 403 "Invalid or expired token"
    | some p => .proceed p

end BoxingCoach

namespace BoxingCoach

/-! ## Theorems -/

/-- Claim C1: validating a token immediately after it is issued for
`(id, email)` under the same secret succeeds and returns exactly the
embedded claims: the payload whose `id` and `email` are the given ones
(together with the timestamps the signer embedded). -/
theorem token_round_trip (secret : String) (now : Nat) (id email : String) :
    verifyToken secret now (generateToken secret now id email) =
      some ⟨id, email, now, now + sevenDays⟩ := by
  simp [verifyToken, generateToken, jwtSign, jwtVerify, sevenDays, Except.toOption]

/-- Claim C2: a token issued at time `T` fails validation at
`T + 7 days + 1 s`, succeeds at `T + 7 days - 1 s`, and in general is
accepted exactly on the half-open window of `7 days = 604800 s` after
issuance. -/
theorem token_validity_window (secret : String) (T : Nat) (id email : String) :
    verifyToken secret (T + sevenDays + 1) (generateToken secret T id email) = none ∧
    verifyToken secret (T + sevenDays - 1) (generateToken secret T id email) =
      some ⟨id, email, T, T + sevenDays⟩ ∧
    ∀ d : Nat, (verifyToken secret (T + d) (generateToken secret T id email)).isSome ↔
      d < sevenDays := by
  refine ⟨?_, ?_, ?_⟩
  · simp [verifyToken, generateToken, jwtSign, jwtVerify, sevenDays, Except.toOption]
  · simp [verifyToken, generateToken, jwtSign, jwtVerify, sevenDays, Except.toOption]
  · intro d
    by_cases hd : d < 604800
    · simp [verifyToken, generateToken, jwtSign, jwtVerify, sevenDays, Except.toOption,
        Nat.not_le.mpr hd, hd]
    · simp [verifyToken, generateToken, jwtSign, jwtVerify, sevenDays, Except.toOption,
        Nat.le_of_not_lt hd, hd]

/-- Claim C3: validation is a total function into an optional result:
whenever the underlying library verification throws, `verifyToken`
returns `none` (the catch clause), whenever it succeeds `verifyToken`
returns the decoded claims, and on every input the result is either
`none` or some decoded claims — never a propagated exception. -/
theorem verify_never_raises (secret : String) (now : Nat) (t : Token) :
    (∀ e, jwtVerify secret now t = .error e → verifyToken secret now t = none) ∧
    (∀ p, jwtVerify secret now t = .ok p → verifyToken secret now t = some p) ∧
    (verifyToken secret now t = none ∨ ∃ p, verifyToken secret now t = some p) := by
  refine ⟨?_, ?_, ?_⟩
  · intro e he
    simp [verifyToken, he, Except.toOption]
  · intro p hp
    simp [verifyToken, hp, Except.toOption]
  · cases h : jwtVerify secret now t with
    | ok p => exact Or.inr ⟨p, by simp [verifyToken, h, Except.toOption]⟩
    | error e => exact Or.inl (by simp [verifyToken, h, Except.toOption])

/-- Witness for C3 at a concrete malformed input. -/
theorem verify_never_raises_witness :
    verifyToken "k" 0 (Token.malformed "garbage") = none :=
  (verify_never_raises "k" 0 (Token.malformed "garbage")).1 JwtError.malformedStructure rfl

/-- Claim C4: a missing authorization token yields the 401 JSON error
response and the handler is not invoked; a token failing validation
yields the 403 JSON error response and the handler is not invoked; a
token passing validation attaches the decoded claims and invokes the
handler — in particular a fresh valid token (issued by `generateToken`
under the same secret, within its window) proceeds with exactly the
issued claims. -/
theorem guard_behavior (secret : String) (now : Nat) (decode : String → Token)
    (req : AuthRequest) :
    (req.authorization = none →
      authenticateToken secret now decode req = .respond 401 "Access token required") ∧
    (∀ t, extractToken req.authorization = some t →
      verifyToken secret now (decode t) = none →
      authenticateToken secret now decode req = .respond 403 "Invalid or expired token") ∧
    (∀ t p, extractToken req.authorization = some t →
      verifyToken secret now (decode t) = some p →
      authenticateToken secret now decode req = .proceed p) ∧
    (∀ t id email T, extractToken req.authorization = some t →
      decode t = generateToken secret T id email → now < T + sevenDays →
      authenticateToken secret now decode req = .proceed ⟨id, email, T, T + sevenDays⟩) := by
  refine ⟨?_, ?_, ?_, ?_⟩
  · intro h
    simp [authenticateToken, extractToken, h]
  · intro t ht hv
    simp [authenticateToken, ht, hv]
  · intro t p ht hv
    simp [authenticateToken, ht, hv]
  · intro t id email T ht hd hlt
    have hv : verifyToken secret now (decode t) = some ⟨id, email, T, T + sevenDays⟩ := by
      simp [hd, verifyToken, generateToken, jwtSign, jwtVerify, Except.toOption,
        Nat.not_le.mpr hlt]
    simp [authenticateToken, ht, hv]

/-- Witness for C4: the three outcomes at concrete requests. -/
theorem guard_behavior_witness :
    authenticateToken "k" 0 (fun _ => Token.malformed "") ⟨none⟩ =
      .respond 401 "Access token required" ∧
    authenticateToken "k" 0 (fun _ => Token.malformed "") ⟨some "Bearer junk"⟩ =
      .respond 403 "Invalid or expired token" ∧
    authenticateToken "k" 0 (fun _ => generateToken "k" 0 "u1" "a@b.com")
      ⟨some "Bearer tok"⟩ = .proceed ⟨"u1", "a@b.com", 0, sevenDays⟩ := by
  refine ⟨(guard_behavior "k" 0 _ _).1 rfl,
    (guard_behavior "k" 0 _ _).2.1 "junk" (by decide) (by decide), ?_⟩
  have h := (guard_behavior "k" 0 (fun _ => generateToken "k" 0 "u1" "a@b.com")
    ⟨some "Bearer tok"⟩).2.2.2 "tok" "u1" "a@b.com" 0 (by decide) rfl (by decide)
  simpa using h

/-! ### Helper lemmas about the JS split embedding -/

theorem splitChars_ne_nil (c : Char) (l : List Char) : splitChars c l ≠ [] := by
  cases l with
  | nil => simp [splitChars]
  | cons x xs => by_cases h : x = c <;> simp [splitChars, h]

theorem splitChars_append_sep (c : Char) (p t : List Char) (hp : c ∉ p) :
    splitChars c (p ++ c :: t) = p :: splitChars c t := by
  induction p with
  | nil => simp [splitChars]
  | cons x xs ih =>
    have hx : x ≠ c := fun h => hp (h ▸ List.mem_cons_self x xs)
    have hxs : c ∉ xs := fun h => hp (List.mem_cons_of_mem _ h)
    simp [splitChars, hx, ih hxs]

theorem extractToken_scheme (t : String) :
    extractToken (some ("Basic " ++ t)) = extractToken (some ("Bearer " ++ t)) := by
  have h1 : ("Basic " ++ t).data = ['B', 'a', 's', 'i', 'c'] ++ ' ' :: t.data := by
    rw [String.data_append]
    rfl
  have h2 : ("Bearer " ++ t).data = ['B', 'e', 'a', 'r', 'e', 'r'] ++ ' ' :: t.data := by
    rw [String.data_append]
    rfl
  have key : (jsSplit ' ' ("Basic " ++ t))[1]? = (jsSplit ' ' ("Bearer " ++ t))[1]? := by
    unfold jsSplit
    rw [h1, h2, splitChars_append_sep _ _ _ (by decide),
      splitChars_append_sep _ _ _ (by decide)]
    simp
  simp only [extractToken, key]

/-- Claim C9 (amended): the guard takes as the token the second
single-space-separated segment of the authorization header, so a
header `Basic t` is treated identically to `Bearer t`; a header with
no second space-separated segment (for example a bare token with no
scheme) is rejected as a missing credential with 401. -/
theorem guard_scheme_irrelevant (secret : String) (now : Nat) (decode : String → Token)
    (t : String) :
    authenticateToken secret now decode ⟨some ("Basic " ++ t)⟩ =
      authenticateToken secret now decode ⟨some ("Bearer " ++ t)⟩ ∧
    (∀ h : String, (jsSplit ' ' h)[1]? = none →
      authenticateToken secret now decode ⟨some h⟩ =
        .respond 401 "Access token required") := by
  constructor
  · simp only [authenticateToken, extractToken_scheme]
  · intro h hh
    simp [authenticateToken, extractToken, hh]

/-- Witness for C9 (amended) at concrete headers. -/
theorem guard_scheme_irrelevant_witness :
    authenticateToken "k" 0 (fun _ => Token.malformed "") ⟨some "rawtokenonly"⟩ =
      .respond 401 "Access token required" ∧
    authenticateToken "k" 0 (fun _ => Token.malformed "") ⟨some "Basic abc"⟩ =
      authenticateToken "k" 0 (fun _ => Token.malformed "") ⟨some "Bearer abc"⟩ :=
  ⟨(guard_scheme_irrelevant "k" 0 (fun _ => Token.malformed "") "abc").2
      "rawtokenonly" (by decide),
   (guard_scheme_irrelevant "k" 0 (fun _ => Token.malformed "") "abc").1⟩

/-- Claim C9 counterexample: the guard splits on the space character
only, not on whitespace. For the header built from `Bearer`, a tab and
`abc` there is a second whitespace-separated segment (`abc`), yet the
code rejects the request as a missing credential with 401, where the
claimed whitespace reading would pass `abc` to validation (403 here). -/
theorem guard_whitespace_counterexample :
    authenticateToken "k" 0 (fun _ => Token.malformed "bad") ⟨some "Bearer\tabc"⟩ =
      .respond 401 "Access token required" ∧
    wsSecondSegment "Bearer\tabc" = some "abc" ∧
    claimNineGuard "k" 0 (fun _ => Token.malformed "bad") ⟨some "Bearer\tabc"⟩ =
      .respond 403 "Invalid or expired token" := by
  exact ⟨by decide, by decide, by decide⟩

/-- Claim C6 counterexample: with an absent stored best score and new
value 0, the update leaves the best score absent (null), whereas the
claimed rule max(currentBest, v) with an absent best treated as 0
yields 0. -/
theorem stats_best_absent_counterexample :
    (updateStats ⟨some 0, some 0, some 0, none⟩ 60 0).best_score = none ∧
    specBestScore none 0 = some 0 ∧
    (updateStats ⟨some 0, some 0, some 0, none⟩ 60 0).best_score ≠ specBestScore none 0 := by
  refine ⟨?_, ?_, ?_⟩ <;> simp [updateStats, specBestScore]

/-- Claim C6 (amended): the aggregate update computes the new average
as exactly (avg * n + v) / (n + 1); the new best is v when v exceeds
the stored best (an absent best compared as 0) and otherwise leaves the
stored value unchanged — in particular with a present best it equals
max(currentBest, v), while an absent best stays absent when v is not
positive; inserting 80, 90, 100 from average 0 and count 0 yields
averages 80, 85, 90 and best score 100. -/
theorem stats_running_average (avg v newV dur d1 d2 d3 : ℚ) (n : ℕ) (s : UserStats)
    (b : ℚ) :
    calculateAverage avg v ((n : ℚ) + 1) = (avg * n + v) / ((n : ℚ) + 1) ∧
    (updateStats { s with best_score := some b } dur newV).best_score =
      some (max b newV) ∧
    (updateStats ⟨some 0, some 0, some 0, none⟩ d1 80).average_score = some 80 ∧
    (updateStats ⟨some 0, some 0, some 0, none⟩ d1 80).best_score = some 80 ∧
    (updateStats (updateStats ⟨some 0, some 0, some 0, none⟩ d1 80) d2 90).average_score =
      some 85 ∧
    (updateStats (updateStats ⟨some 0, some 0, some 0, none⟩ d1 80) d2 90).best_score =
      some 90 ∧
    (updateStats (updateStats (updateStats ⟨some 0, some 0, some 0, none⟩ d1 80) d2 90)
      d3 100).average_score = some 90 ∧
    (updateStats (updateStats (updateStats ⟨some 0, some 0, some 0, none⟩ d1 80) d2 90)
      d3 100).best_score = some 100 ∧
    (updateStats (updateStats (updateStats ⟨some 0, some 0, some 0, none⟩ d1 80) d2 90)
      d3 100).total_sessions = some 3 := by
  refine ⟨?_, ?_, ?_, ?_, ?_, ?_, ?_, ?_, ?_⟩
  · simp [calculateAverage]
  · by_cases hbv : b < newV
    · simp [updateStats, hbv, max_eq_right (le_of_lt hbv)]
    · simp [updateStats, hbv, max_eq_left (not_lt.mp hbv)]
  · norm_num [updateStats, calculateAverage]
  · norm_num [updateStats]
  · norm_num [updateStats, calculateAverage]
  · norm_num [updateStats, calculateAverage]
  · norm_num [updateStats, calculateAverage]
  · norm_num [updateStats, calculateAverage]
  · norm_num [updateStats]

/-- Claim C7: given a well-formed login request, both failure modes —
unknown email and password not matching the stored hash — produce the
same 401 response with the generic message, so the response does not
reveal which field was wrong. -/
theorem login_uniform_failure (secret : String) (now : Nat) (body : LoginBody)
    (lookup : String → Option UserRow) :
    jsTruthy body.email = true → jsTruthy body.password = true →
    (lookup (body.email.getD "") = none →
      postLogin secret now body lookup = .err 401 "Invalid email or password") ∧
    (∀ u, lookup (body.email.getD "") = some u →
      comparePassword (body.password.getD "") u.password_hash = false →
      postLogin secret now body lookup = .err 401 "Invalid email or password") := by
  intro he hp
  constructor
  · intro hl
    simp [postLogin, he, hp, hl]
  · intro u hl hc
    simp [postLogin, he, hp, hl, hc]

/-- Witness for C7: the unknown-email and wrong-password responses at
concrete inputs, both the same generic 401. -/
theorem login_uniform_failure_witness :
    postLogin "k" 0 ⟨some "x@y.z", some "pw"⟩ (fun _ => none) =
      .err 401 "Invalid email or password" ∧
    postLogin "k" 0 ⟨some "x@y.z", some "pw"⟩
        (fun _ => some ⟨"u1", "x@y.z", hashPassword "r" "other", "X"⟩) =
      .err 401 "Invalid email or password" :=
  ⟨(login_uniform_failure "k" 0 ⟨some "x@y.z", some "pw"⟩ (fun _ => none)
      (by decide) (by decide)).1 rfl,
   (login_uniform_failure "k" 0 ⟨some "x@y.z", some "pw"⟩
      (fun _ => some ⟨"u1", "x@y.z", hashPassword "r" "other", "X"⟩)
      (by decide) (by decide)).2
      ⟨"u1", "x@y.z", hashPassword "r" "other", "X"⟩ rfl (by decide)⟩

/-- Claim C10 counterexample: a signup request with email present and
password the empty string — which is shorter than 6 characters — is
rejected 400 with the missing-fields message, not with the
password-length message the claim states. -/
theorem signup_empty_password_counterexample :
    ((some "" : Option String).getD "").length < 6 ∧
    postSignup "r" "k" 0 ⟨some "a@b.com", some "", none⟩
        (fun _ _ _ => .error .uniqueViolation) =
      (.err 400 "Email and password are required", []) ∧
    (postSignup "r" "k" 0 ⟨some "a@b.com", some "", none⟩
        (fun _ _ _ => .error .uniqueViolation)).1 ≠
      .err 400 "Password must be at least 6 characters" := by
  exact ⟨by decide, by decide, by decide⟩

/-- Claim C10 (amended): a signup request whose email is present and
whose password is a nonempty string shorter than 6 characters is
rejected 400 with the password-length message, with no hashing and no
database write performed (empty effect list); a request whose password
is the empty string is instead rejected 400 with the missing-fields
message, likewise before any effect. -/
theorem signup_short_password (randomness secret : String) (now : Nat)
    (body : SignupBody)
    (insertUser : String → BcryptHash → String → Except DbInsertError UserRow)
    (pw : String) :
    (jsTruthy body.email = true → body.password = some pw → pw ≠ "" → pw.length < 6 →
      postSignup randomness secret now body insertUser =
        (.err 400 "Password must be at least 6 characters", [])) ∧
    (body.password = some "" →
      postSignup randomness secret now body insertUser =
        (.err 400 "Email and password are required", [])) := by
  constructor
  · intro he hp hne hlen
    cases hbe : body.email with
    | none =>
      rw [hbe] at he
      exact absurd he (by simp [jsTruthy])
    | some e =>
      rw [hbe] at he
      have hene : e ≠ "" := by simpa [jsTruthy] using he
      simp [postSignup, hbe, hp, jsTruthy, hne, hlen, hene]
  · intro hp
    simp [postSignup, hp, jsTruthy]

/-- Witness for C10 (amended) at a concrete 3-character password. -/
theorem signup_short_password_witness :
    postSignup "r" "k" 0 ⟨some "a@b.com", some "abc", none⟩
        (fun _ _ _ => .error .uniqueViolation) =
      (.err 400 "Password must be at least 6 characters", []) :=
  (signup_short_password "r" "k" 0 ⟨some "a@b.com", some "abc", none⟩
      (fun _ _ _ => .error .uniqueViolation) "abc").1
    (by decide) rfl (by decide) (by decide)

/-- Claim C8: the hash operation salts with a fixed cost factor of 10,
two calls with distinct drawn salts produce different outputs for the
same plaintext, and verifying the plaintext against either output
returns true. -/
theorem hash_salted_round_trip (p r1 r2 : String) :
    r1 ≠ r2 →
    hashPassword r1 p ≠ hashPassword r2 p ∧
    comparePassword p (hashPassword r1 p) = true ∧
    comparePassword p (hashPassword r2 p) = true ∧
    (hashPassword r1 p).rounds = 10 := by
  intro h
  refine ⟨?_, ?_, ?_, rfl⟩
  · intro hcontra
    exact h (congrArg BcryptHash.randomness hcontra)
  · simp [comparePassword, bcryptCompare, hashPassword, bcryptHashWith, bcryptGenSalt]
  · simp [comparePassword, bcryptCompare, hashPassword, bcryptHashWith, bcryptGenSalt]

/-- Witness for C8 at concrete salts and plaintext. -/
theorem hash_salted_round_trip_witness :
    hashPassword "saltA" "pw" ≠ hashPassword "saltB" "pw" ∧
    comparePassword "pw" (hashPassword "saltA" "pw") = true ∧
    comparePassword "pw" (hashPassword "saltB" "pw") = true :=
  ⟨(hash_salted_round_trip "pw" "saltA" "saltB" (by decide)).1,
   (hash_salted_round_trip "pw" "saltA" "saltB" (by decide)).2.1,
   (hash_salted_round_trip "pw" "saltA" "saltB" (by decide)).2.2.1⟩

/-- Claim C5, evaluated against the code: when the secret is absent
from every configuration source, startup is rejected with a
missing-secret error, and no app (hence no signer) comes up; but at
the failing input — the secret supplied only through the .env file, as
the repository documentation instructs — the required-variable check
passes (dotenv has loaded the secret by the time it runs), while the
token module, whose secret was captured at import time before
`dotenv.config()`, silently signs with the weak default
`your-secret-key`. -/
theorem startup_dotenv_weak_default :
    startup ⟨some "u", some "s", none⟩ ⟨none, none, some "envfile-secret"⟩ =
      .ok ⟨"your-secret-key"⟩ ∧
    "your-secret-key" ≠ "envfile-secret" ∧
    startup ⟨some "u", some "s", none⟩ ⟨none, none, none⟩ = .error ["JWT_SECRET"] ∧
    (∀ osEnv fileEnv, (dotenvLoad osEnv fileEnv).jwt_secret = none →
      ∃ missing, startup osEnv fileEnv = .error missing ∧ "JWT_SECRET" ∈ missing) := by
  refine ⟨rfl, by decide, rfl, ?_⟩
  intro osEnv fileEnv hnone
  have hmem : "JWT_SECRET" ∈ missingEnvVars (dotenvLoad osEnv fileEnv) := by
    refine List.mem_filter.mpr ⟨?_, ?_⟩
    · simp [requiredEnvVars]
    · simp [envLookup, hnone, jsTruthy]
  refine ⟨missingEnvVars (dotenvLoad osEnv fileEnv), ?_, hmem⟩
  cases hm : missingEnvVars (dotenvLoad osEnv fileEnv) with
  | nil =>
    rw [hm] at hmem
    cases hmem
  | cons m ms =>
    simp only [startup, hm]

end BoxingCoach
